import Mathlib

/-!
Shallow embedding of the GCP project health agent
(`health_agent.py`, `main.py`, `app.py`).

Upstream services (the Cloud Monitoring metrics service and the Compute
inventory service) are modelled as part of a per-project environment:
the metrics service is a function from the request the code builds to a
response (or an API error), and each pagination run of the inventory
service is the list of pages it would yield (or an API error).  Python
floats are modelled as rationals, with the not-a-number sentinel
modelled as `Option.none`.  Python dicts keyed by strings or string
pairs are modelled as association lists with insert-or-overwrite
semantics, preserving iteration order.
-/

/-- A timestamped metric time series as consumed by the agent: the
`instance_id` and `zone` resource labels (defaulted to `""` by the code
when absent) and the list of point values. -/
structure TimeSeries where
  instance_id : String
  zone : String
  points : List ℚ
deriving DecidableEq

/-- One VM descriptor from the inventory listing, with the fields the
code reads: name, full zone path, full machine-type path, numeric id
(as the API's string), and status. -/
structure Instance where
  name : String
  zone : String
  machineType : String
  id : String
  status : String
deriving DecidableEq

/-- One page of the aggregated inventory listing: the `items` map from
zone key to the instances grouped under it, in iteration order. -/
abbrev Page := List (String × List Instance)

/-- The `ListTimeSeriesRequest` the code constructs. -/
structure TSRequest where
  name : String
  filter : String
  startSec : ℤ
  endSec : ℤ
  alignmentSeconds : ℤ
  perSeriesAligner : String
  crossSeriesReducer : Option String
  view : String
deriving DecidableEq

/-- Per-project upstream environment: the metrics service as a function
of the request, and the two independent pagination runs of the
inventory service (one for `list_running_vms`, one re-executed inside
`get_per_instance_breakdown`). -/
structure ProjEnv where
  metrics : TSRequest → Except String (List TimeSeries)
  pages1 : Except String (List Page)
  pages2 : Except String (List Page)

def ALIGN_SECONDS : ℤ := 600

/-- `_now_interval`: the trailing 600-second window ending at the clock
value (epoch seconds). -/
def _now_interval (clock : ℤ) : ℤ × ℤ :=
  (clock - ALIGN_SECONDS, clock)

def metricFilter (metricType : String) : String :=
  "metric.type = \"" ++ metricType ++ "\" AND resource.type = \"gce_instance\""

/-- `_ts_request_common`: the aggregate request, with the cross-series
mean reducer. -/
def _ts_request_common (clock : ℤ) (projectId metricType : String) : TSRequest :=
  let se := _now_interval clock
  { name := "projects/" ++ projectId
    filter := metricFilter metricType
    startSec := se.1
    endSec := se.2
    alignmentSeconds := ALIGN_SECONDS
    perSeriesAligner := "ALIGN_MEAN"
    crossSeriesReducer := some "REDUCE_MEAN"
    view := "FULL" }

/-- The per-instance request built inside `get_per_instance_breakdown`:
same interval and aligner, but no cross-series reducer. -/
def tsRequestPerInstance (clock : ℤ) (projectId metricType : String) : TSRequest :=
  let se := _now_interval clock
  { name := "projects/" ++ projectId
    filter := metricFilter metricType
    startSec := se.1
    endSec := se.2
    alignmentSeconds := ALIGN_SECONDS
    perSeriesAligner := "ALIGN_MEAN"
    crossSeriesReducer := none
    view := "FULL" }

def cpuMetricType : String := "compute.googleapis.com/instance/cpu/utilization"

def memMetricType : String := "agent.googleapis.com/memory/percent_used"

/-- The scan in `get_project_cpu_avg` / `get_project_mem_avg` after the
empty-list check: return the first point of the first series that has a
point, else not-a-number (`none`). -/
def firstPts : List TimeSeries → Option ℚ
  | [] => none
  | ts :: rest =>
    match ts.points with
    | [] => firstPts rest
    | v :: _ => some v

/-- The whole body of the aggregate fetchers on a series list:
`if not series: return nan` followed by the first-point scan. -/
def scanFirstPoint (series : List TimeSeries) : Option ℚ :=
  match series with
  | [] => none
  | _ => firstPts series

/-- `get_project_cpu_avg`: issue the aggregate CPU request and scan the
response. -/
def get_project_cpu_avg (clock : ℤ) (env : ProjEnv) (projectId : String) :
    Except String (Option ℚ) :=
  match env.metrics (_ts_request_common clock projectId cpuMetricType) with
  | .error e => .error e
  | .ok series => .ok (scanFirstPoint series)

/-- `get_project_mem_avg`: issue the aggregate memory request and scan
the response. -/
def get_project_mem_avg (clock : ℤ) (env : ProjEnv) (projectId : String) :
    Except String (Option ℚ) :=
  match env.metrics (_ts_request_common clock projectId memMetricType) with
  | .error e => .error e
  | .ok series => .ok (scanFirstPoint series)

/-- Python `str.split("/")` on a character list: always at least one
(possibly empty) segment, empty separators kept. -/
def splitCharsAux : List Char → List (List Char)
  | [] => [[]]
  | c :: rest =>
    let s := splitCharsAux rest
    if c = '/' then [] :: s
    else
      match s with
      | [] => [[c]]
      | t :: ts => (c :: t) :: ts

/-- Python `path.split("/")[-1]`: the last segment of a resource path
(`""` for the empty string). -/
def lastSegment (s : String) : String :=
  String.mk ((splitCharsAux s.toList).getLastD [])

/-- The VM record built by `list_running_vms` for one instance. -/
structure VmRecord where
  name : String
  zone : String
  machineType : String
  id : String
deriving DecidableEq

def toVmRecord (inst : Instance) : VmRecord :=
  { name := inst.name
    zone := lastSegment inst.zone
    machineType := lastSegment inst.machineType
    id := inst.id }

/-- The instances of one page in iteration order (over the `items`
zone groups). -/
def pageInstances : Page → List Instance
  | [] => []
  | (_, insts) :: rest => insts ++ pageInstances rest

/-- All instances across the pagination run, in the order the nested
loops visit them. -/
def allInstances : List Page → List Instance
  | [] => []
  | pg :: rest => pageInstances pg ++ allInstances rest

/-- The accumulation loop of `list_running_vms`: keep instances whose
status is `"RUNNING"`, mapped to VM records. -/
def collectRunning : List Instance → List VmRecord
  | [] => []
  | i :: rest =>
    if i.status = "RUNNING" then toVmRecord i :: collectRunning rest
    else collectRunning rest

/-- The pure core of `list_running_vms` on a pagination run:
`return len(result), result`. -/
def listRunningVmsData (pages : List Page) : ℕ × List VmRecord :=
  let result := collectRunning (allInstances pages)
  (result.length, result)

/-- `list_running_vms`: paginate the inventory service and accumulate
running VMs; an API error during pagination propagates. -/
def list_running_vms (env : ProjEnv) (_projectId : String) :
    Except String (ℕ × List VmRecord) :=
  match env.pages1 with
  | .error e => .error e
  | .ok pages => .ok (listRunningVmsData pages)

/-- Python dict assignment `m[k] = v`: overwrite in place if the key is
present, else append. -/
def dictInsert {α β : Type} [DecidableEq α] :
    List (α × β) → α → β → List (α × β)
  | [], k, v => [(k, v)]
  | (k0, v0) :: rest, k, v =>
    if k0 = k then (k, v) :: rest else (k0, v0) :: dictInsert rest k v

/-- Python dict lookup `m.get(k)`. -/
def dictGet? {α β : Type} [DecidableEq α] :
    List (α × β) → α → Option β
  | [], _ => none
  | (k0, v0) :: rest, k => if k0 = k then some v0 else dictGet? rest k

/-- The (instance id, zone) key extracted from a series' resource
labels. -/
def tsKey (ts : TimeSeries) : String × String :=
  (ts.instance_id, ts.zone)

/-- One step of the `fetch` loop inside `get_per_instance_breakdown`:
record the first point of the series under its key, skipping series
with no points. -/
def fetchStep (m : List ((String × String) × ℚ)) (ts : TimeSeries) :
    List ((String × String) × ℚ) :=
  match ts.points with
  | [] => m
  | v :: _ => dictInsert m (tsKey ts) v

/-- The `fetch` helper of `get_per_instance_breakdown`: build the
(instance id, zone) → first-point-value map from a series list. -/
def fetchVals (series : List TimeSeries) : List ((String × String) × ℚ) :=
  series.foldl fetchStep []

/-- The per-instance metadata stored in `name_map`. -/
structure VmMeta where
  name : String
  zone : String
  machineType : String
deriving DecidableEq

/-- The `name_map` loop of `get_per_instance_breakdown`: keyed by
numeric id, over ALL instances regardless of status. -/
def buildNameMap (pages : List Page) : List (String × VmMeta) :=
  (allInstances pages).foldl
    (fun m i =>
      dictInsert m i.id
        { name := i.name
          zone := lastSegment i.zone
          machineType := lastSegment i.machineType })
    []

/-- Round-half-even to an integer, as Python's `round` on exact
values. -/
def pyRoundInt (q : ℚ) : ℤ :=
  let f := Int.floor q
  let r := q - f
  if r < 1 / 2 then f
  else if 1 / 2 < r then f + 1
  else if f % 2 = 0 then f else f + 1

/-- Python `round(x, 2)`. -/
def pyRound2 (q : ℚ) : ℚ :=
  (pyRoundInt (q * 100) : ℚ) / 100

/-- A joined per-instance row; `memory_used_pct = none` models the
not-a-number produced by `round(nan, 2)`. -/
structure Row where
  instanceName : String
  zone : String
  machineType : String
  cpu_utilization_pct : ℚ
  memory_used_pct : Option ℚ
deriving DecidableEq

/-- The row built for one CPU map entry with its matched metadata. -/
def mkRow (meta : VmMeta) (kv : (String × String) × ℚ)
    (mem : List ((String × String) × ℚ)) : Row :=
  { instanceName := meta.name
    zone := meta.zone
    machineType := meta.machineType
    cpu_utilization_pct := pyRound2 (kv.2 * 100)
    memory_used_pct := (dictGet? mem kv.1).map pyRound2 }

/-- The emission loop of `get_per_instance_breakdown`: iterate the CPU
map; skip entries whose id is absent from `name_map`. -/
def joinRows (cpu mem : List ((String × String) × ℚ))
    (nm : List (String × VmMeta)) : List Row :=
  match cpu with
  | [] => []
  | kv :: rest =>
    match dictGet? nm kv.1.1 with
    | none => joinRows rest mem nm
    | some meta => mkRow meta kv mem :: joinRows rest mem nm

/-- The pure core of `get_per_instance_breakdown` on the three upstream
responses. -/
def breakdownFromData (cpuSeries memSeries : List TimeSeries)
    (pages : List Page) : List Row :=
  joinRows (fetchVals cpuSeries) (fetchVals memSeries) (buildNameMap pages)

/-- `get_per_instance_breakdown`: the two per-instance metric fetches,
the independent inventory pagination, and the join; any API error
propagates uncaught. -/
def get_per_instance_breakdown (clock : ℤ) (env : ProjEnv)
    (projectId : String) : Except String (List Row) :=
  match env.metrics (tsRequestPerInstance clock projectId cpuMetricType) with
  | .error e => .error e
  | .ok cpuSeries =>
    match env.metrics (tsRequestPerInstance clock projectId memMetricType) with
    | .error e => .error e
    | .ok memSeries =>
      match env.pages2 with
      | .error e => .error e
      | .ok pages => .ok (breakdownFromData cpuSeries memSeries pages)

/-! ### Command-line presentation layer (`main.py`) -/

/-- The fixed project list of `main.py`. -/
def PROJECTS : List String :=
  ["km-prod", "km-prod-cn-443607", "km-prod-eu", "km-prod-in",
   "km-prod-us", "km-dev-434106"]

def cpuFailMsg (projectId e : String) : String :=
  "[!] CPU query failed for " ++ projectId ++ ": " ++ e

def memFailMsg (projectId e : String) : String :=
  "[!] Memory query failed for " ++ projectId ++ ": " ++ e

def vmFailMsg (projectId e : String) : String :=
  "[!] VM list failed for " ++ projectId ++ ": " ++ e

/-- What one `run_for_project` invocation prints, structurally:
the caught-error log lines, the summary values (averages with `none`
for not-a-number, the running-VM count) and, when the count is
nonzero, the per-instance rows. -/
structure Report where
  project : String
  cpuAvg : Option ℚ
  memAvg : Option ℚ
  vmCount : ℕ
  rows : Option (List Row)
  logs : List String
deriving DecidableEq

/-- The first `try/except` block of `run_for_project`: a caught
`GoogleAPICallError` yields the not-a-number default and a log line. -/
def caughtCpu (clock : ℤ) (env : ProjEnv) (projectId : String) :
    Option ℚ × List String :=
  match get_project_cpu_avg clock env projectId with
  | .error e => (none, [cpuFailMsg projectId e])
  | .ok v => (v, [])

/-- The second `try/except` block of `run_for_project`. -/
def caughtMem (clock : ℤ) (env : ProjEnv) (projectId : String) :
    Option ℚ × List String :=
  match get_project_mem_avg clock env projectId with
  | .error e => (none, [memFailMsg projectId e])
  | .ok v => (v, [])

/-- The third `try/except` block of `run_for_project`: a caught
`HttpError` yields the zero count and empty list defaults. -/
def caughtVm (env : ProjEnv) (projectId : String) :
    (ℕ × List VmRecord) × List String :=
  match list_running_vms env projectId with
  | .error e => ((0, []), [vmFailMsg projectId e])
  | .ok r => (r, [])

/-- `run_for_project`: the three guarded calls with their neutral
defaults and log messages, the early return on a zero VM count, and
the UNGUARDED `get_per_instance_breakdown` call whose API error
escapes as `Except.error`. -/
def run_for_project (clock : ℤ) (env : ProjEnv) (projectId : String) :
    Except String Report :=
  let cpuC := caughtCpu clock env projectId
  let memC := caughtMem clock env projectId
  let vmC := caughtVm env projectId
  let logs := cpuC.2 ++ memC.2 ++ vmC.2
  if vmC.1.1 = 0 then
    .ok { project := projectId, cpuAvg := cpuC.1, memAvg := memC.1
          vmCount := vmC.1.1, rows := none, logs := logs }
  else
    match get_per_instance_breakdown clock env projectId with
    | .error e => .error e
    | .ok rs =>
      .ok { project := projectId, cpuAvg := cpuC.1, memAvg := memC.1
            vmCount := vmC.1.1, rows := some rs, logs := logs }

/-- The `--all` loop of `main`: run projects in order; a per-project
report is produced for each completed project, and an uncaught
exception aborts the remaining batch (second component). -/
def runBatch (clock : ℤ) : List (String × ProjEnv) → List Report × Option String
  | [] => ([], none)
  | (projectId, env) :: rest =>
    match run_for_project clock env projectId with
    | .error e => ([], some e)
    | .ok r =>
      let res := runBatch clock rest
      (r :: res.1, res.2)

/-- `main --all`: the batch over the fixed project list, each project
with its own upstream environment. -/
def main_all (clock : ℤ) (envs : String → ProjEnv) : List Report × Option String :=
  runBatch clock (PROJECTS.map (fun projectId => (projectId, envs projectId)))

/-! Formatting of the report, as printed by `run_for_project`. -/

def padRight (s : String) (n : ℕ) : String :=
  s ++ String.mk (List.replicate (n - s.length) ' ')

def padLeft (s : String) (n : ℕ) : String :=
  String.mk (List.replicate (n - s.length) ' ') ++ s

def fmtCents (n : ℕ) : String :=
  toString (n / 100) ++ "." ++
    (if n % 100 < 10 then "0" else "") ++ toString (n % 100)

/-- Python `"%.2f" % q` on an exact value. -/
def fmtQ2 (q : ℚ) : String :=
  let cents := pyRoundInt (q * 100)
  if cents < 0 then "-" ++ fmtCents (-cents).toNat else fmtCents cents.toNat

/-- `"%8.2f"` with not-a-number printed as `nan`. -/
def fmtOpt2 (o : Option ℚ) (width : ℕ) : String :=
  match o with
  | none => padLeft "nan" width
  | some q => padLeft (fmtQ2 q) width

/-- Is row `r` strictly before row `x` under the sort key
`(zone, instance)`? -/
def rowBefore (r x : Row) : Bool :=
  if r.zone < x.zone then true
  else if r.zone = x.zone ∧ r.instanceName < x.instanceName then true
  else false

/-- Stable insertion for the `sorted(rows, key=...)` call. -/
def insertRow (r : Row) : List Row → List Row
  | [] => [r]
  | x :: xs => if rowBefore r x then r :: x :: xs else x :: insertRow r xs

def sortRows : List Row → List Row
  | [] => []
  | r :: rs => insertRow r (sortRows rs)

def tableHeader : String :=
  padRight "INSTANCE" 32 ++ " " ++ padRight "ZONE" 15 ++ " " ++
    padRight "TYPE" 20 ++ " " ++ padLeft "CPU%" 8 ++ " " ++ padLeft "MEM%" 8

def rowLine (r : Row) : String :=
  padRight (r.instanceName.take 32) 32 ++ " " ++
    padRight (r.zone.take 15) 15 ++ " " ++
    padRight (r.machineType.take 20) 20 ++ " " ++
    padLeft (fmtQ2 r.cpu_utilization_pct) 8 ++ " " ++
    fmtOpt2 r.memory_used_pct 8

/-- The lines `run_for_project` prints, in order. -/
def formatReport (r : Report) : List String :=
  r.logs ++
  ["", "=== GCP Project Health (last 10 minutes) ===",
   "Project: " ++ r.project,
   "Average CPU Utilization: " ++
     (match r.cpuAvg with
      | none => "N/A"
      | some v => fmtQ2 (v * 100) ++ "%"),
   "Average Memory Used: " ++
     (match r.memAvg with
      | none => "N/A"
      | some v => fmtQ2 v ++ "%"),
   "RUNNING VMs: " ++ toString r.vmCount] ++
  (match r.rows with
   | none => []
   | some [] =>
     ["", "-- Per-instance (avg of last 10m) --",
      "No per-instance metrics found (ensure Ops Agent is installed)."]
   | some rs =>
     ["", "-- Per-instance (avg of last 10m) --", tableHeader] ++
       (sortRows rs).map rowLine)

/-! ### Web presentation layer (`app.py`) -/

/-- The fixed project list duplicated in `app.py`. -/
def PROJECTS_APP : List String :=
  ["km-prod", "km-prod-cn-443607", "km-prod-eu", "km-prod-in",
   "km-prod-us", "km-dev-434106"]

/-- The result object the POST handler renders. -/
structure WebResult where
  project : String
  cpu_avg : String
  mem_avg : String
  vm_count : ℕ
  instances : List Row
deriving DecidableEq

/-- The `index` route handler: `request.form.get("project_id")` is
`none` on GET or when the field is absent, and a falsy (empty) id also
skips computation; otherwise the four queries run with NO error
containment, so any API error escapes the handler. -/
def index (clock : ℤ) (env : ProjEnv) (formProjectId : Option String) :
    Except String (Option WebResult) :=
  match formProjectId with
  | none => .ok none
  | some projectId =>
    if projectId = "" then .ok none
    else
      match get_project_cpu_avg clock env projectId with
      | .error e => .error e
      | .ok cpuAvg =>
        match get_project_mem_avg clock env projectId with
        | .error e => .error e
        | .ok memAvg =>
          match list_running_vms env projectId with
          | .error e => .error e
          | .ok vmR =>
            match get_per_instance_breakdown clock env projectId with
            | .error e => .error e
            | .ok perInstance =>
              .ok (some
                { project := projectId
                  cpu_avg :=
                    match cpuAvg with
                    | none => "N/A"
                    | some v => fmtQ2 (v * 100) ++ "%"
                  mem_avg :=
                    match memAvg with
                    | none => "N/A"
                    | some v => fmtQ2 v ++ "%"
                  vm_count := vmR.1
                  instances := perInstance })

/-! ### Spec-side definitions and sample data -/

/-- Modelled from the spec sentence for the aggregate fetchers: the
first available point value from the first series that has at least one
point; not-a-number when no series or no points exist.  Used as the
comparison point for the source-derived scan. -/
def specFirstAvailable (series : List TimeSeries) : Option ℚ :=
  (series.find? (fun ts => !ts.points.isEmpty)).bind (fun ts => ts.points.head?)

/-- A project whose `run_for_project` invocation cannot hit the
uncaught path: either the VM listing yields a zero running count (or
errors, which defaults the count to zero), or the breakdown call
succeeds. -/
def safeProj (clock : ℤ) (env : ProjEnv) (projectId : String) : Prop :=
  (match list_running_vms env projectId with
   | .error _ => True
   | .ok r => r.1 = 0) ∨
  ∃ rows, get_per_instance_breakdown clock env projectId = .ok rows

/-- Sample per-instance series: one matched instance id and one orphan
id. -/
def wSeries : List TimeSeries :=
  [⟨"123", "us-central1-a", [4567 / 10000]⟩,
   ⟨"999", "us-central1-a", [1 / 10]⟩]

/-- Sample inventory run containing only instance id `"123"`. -/
def wPages : List Page :=
  [[("zones/us-central1-a",
     [⟨"web-1", "zones/us-central1-a", "machineTypes/e2-medium", "123",
       "RUNNING"⟩])]]

/-- Sample environment answering every metrics request with `wSeries`. -/
def wEnv : ProjEnv :=
  ⟨fun _ => .ok wSeries, .ok wPages, .ok wPages⟩

/-- Inventory run with a single TERMINATED instance (zero running). -/
def c5Pages : List Page :=
  [[("zones/us-central1-a",
     [⟨"old-vm", "zones/us-central1-a", "machineTypes/e2-small", "77",
       "TERMINATED"⟩])]]

/-- Residual CPU series still emitted for the terminated instance. -/
def c5Cpu : List TimeSeries := [⟨"77", "us-central1-a", [1 / 2]⟩]

/-- Environment for the zero-running-instances scenario with residual
metrics: per-instance CPU requests see `c5Cpu`, everything else is
empty. -/
def c5Env : ProjEnv :=
  ⟨fun r =>
     if r.crossSeriesReducer = none ∧ r.filter = metricFilter cpuMetricType
     then .ok c5Cpu else .ok [],
   .ok c5Pages, .ok c5Pages⟩

/-- Environment whose per-instance metric requests fail while the
aggregate requests succeed; its inventory has one running VM, so
`run_for_project` reaches the unguarded breakdown call. -/
def cxBadEnv : ProjEnv :=
  ⟨fun r => if r.crossSeriesReducer = none then .error "boom" else .ok [],
   .ok [[("zones/z", [⟨"a", "zones/z", "machineTypes/t", "1", "RUNNING"⟩])]],
   .ok []⟩

/-- Environment where every upstream call succeeds with empty data. -/
def cxGoodEnv : ProjEnv := ⟨fun _ => .ok [], .ok [], .ok []⟩

/-- Environment whose two aggregate metric queries fail and whose
inventory is empty. -/
def c1wEnv : ProjEnv := ⟨fun _ => .error "quota", .ok [], .ok []⟩

/-! ### Helper lemmas -/

theorem firstPts_eq_spec (ss : List TimeSeries) :
    firstPts ss = specFirstAvailable ss := by
  induction ss with
  | nil => rfl
  | cons ts rest ih =>
    cases hp : ts.points with
    | nil =>
      simp [firstPts, specFirstAvailable, List.find?_cons, hp] at ih ⊢
      exact ih
    | cons v vs =>
      simp [firstPts, specFirstAvailable, List.find?_cons, hp]

theorem scanFirstPoint_eq_spec (ss : List TimeSeries) :
    scanFirstPoint ss = specFirstAvailable ss := by
  cases ss with
  | nil => rfl
  | cons ts rest => exact firstPts_eq_spec (ts :: rest)

theorem collectRunning_eq_filter (l : List Instance) :
    collectRunning l =
      (l.filter (fun i => decide (i.status = "RUNNING"))).map toVmRecord := by
  induction l with
  | nil => rfl
  | cons i rest ih =>
    by_cases h : i.status = "RUNNING" <;>
      simp [collectRunning, List.filter_cons, h, ih]

theorem collectRunning_eq_nil (l : List Instance)
    (h : ∀ i ∈ l, i.status ≠ "RUNNING") : collectRunning l = [] := by
  induction l with
  | nil => rfl
  | cons i rest ih =>
    simp [collectRunning, h i (by simp),
      ih (fun j hj => h j (List.mem_cons_of_mem _ hj))]

theorem splitCharsAux_ne_nil (cs : List Char) : splitCharsAux cs ≠ [] := by
  cases cs with
  | nil => simp [splitCharsAux]
  | cons c rest =>
    simp only [splitCharsAux]
    by_cases h : c = '/'
    · simp [h]
    · simp only [if_neg h]
      cases splitCharsAux rest <;> simp

theorem splitCharsAux_slash_shape (xs ys : List Char) :
    ∃ t ts, splitCharsAux (xs ++ '/' :: ys) = t :: ts ∧ ts ≠ [] := by
  induction xs with
  | nil =>
    exact ⟨[], splitCharsAux ys, by simp [splitCharsAux],
      splitCharsAux_ne_nil ys⟩
  | cons c xs ih =>
    obtain ⟨t, ts, hs, hts⟩ := ih
    by_cases h : c = '/'
    · exact ⟨[], t :: ts, by simp [splitCharsAux, h, hs], by simp⟩
    · exact ⟨c :: t, ts, by simp [splitCharsAux, h, hs], hts⟩

theorem getLastD_ne_nil_congr {α : Type} (l : List α) (h : l ≠ [])
    (d1 d2 : α) : l.getLastD d1 = l.getLastD d2 := by
  cases l with
  | nil => exact absurd rfl h
  | cons x xs => rw [List.getLastD_cons, List.getLastD_cons]

theorem getLastD_splitCharsAux_append (xs ys : List Char) :
    (splitCharsAux (xs ++ '/' :: ys)).getLastD [] =
      (splitCharsAux ys).getLastD [] := by
  induction xs with
  | nil =>
    have heq : splitCharsAux ('/' :: ys) = [] :: splitCharsAux ys := by
      simp [splitCharsAux]
    show (splitCharsAux ('/' :: ys)).getLastD [] = _
    rw [heq, List.getLastD_cons]
  | cons c xs ih =>
    obtain ⟨t, ts, hs, hts⟩ := splitCharsAux_slash_shape xs ys
    by_cases h : c = '/'
    · have heq : splitCharsAux (c :: (xs ++ '/' :: ys)) =
          [] :: splitCharsAux (xs ++ '/' :: ys) := by
        simp [splitCharsAux, h]
      show (splitCharsAux (c :: (xs ++ '/' :: ys))).getLastD [] = _
      rw [heq, List.getLastD_cons]
      exact ih
    · have heq : splitCharsAux (c :: (xs ++ '/' :: ys)) = (c :: t) :: ts := by
        simp [splitCharsAux, h, hs]
      show (splitCharsAux (c :: (xs ++ '/' :: ys))).getLastD [] = _
      rw [heq, List.getLastD_cons]
      rw [getLastD_ne_nil_congr ts hts (c :: t) t]
      have h2 : (t :: ts).getLastD [] = (splitCharsAux ys).getLastD [] := by
        rw [← hs]; exact ih
      rw [List.getLastD_cons] at h2
      exact h2

theorem splitCharsAux_no_slash (cs : List Char) (h : ∀ c ∈ cs, c ≠ '/') :
    splitCharsAux cs = [cs] := by
  induction cs with
  | nil => rfl
  | cons c rest ih =>
    have hr := ih (fun x hx => h x (List.mem_cons_of_mem _ hx))
    simp [splitCharsAux, h c (List.mem_cons_self c rest), hr]

theorem lastSegment_append_last (a b : String) (hb : ∀ c ∈ b.toList, c ≠ '/') :
    lastSegment (a ++ "/" ++ b) = b := by
  unfold lastSegment
  have hdata : (a ++ "/" ++ b).toList = a.toList ++ '/' :: b.toList := by
    obtain ⟨la⟩ := a
    obtain ⟨lb⟩ := b
    simp [String.toList, List.append_assoc]
  rw [hdata, getLastD_splitCharsAux_append, splitCharsAux_no_slash _ hb,
    List.getLastD_cons]
  rfl

/-! ### Claim theorems -/

/-- C10: for every paginated inventory response sequence, the count
returned by `list_running_vms` as the first component equals the length
of the list returned as the second component. -/
theorem c10_count_eq_length (pages : List Page) :
    (listRunningVmsData pages).1 = (listRunningVmsData pages).2.length := rfl

/-- C2: for every project id and every series list returned by the
metrics service, `get_project_cpu_avg` and `get_project_mem_avg` each
return the first point of the first series having at least one point,
and the not-a-number sentinel (`none`) when the series list is empty or
no series has a point — i.e. exactly `specFirstAvailable` of the
response. -/
theorem c2_first_available_point (clock : ℤ) (env : ProjEnv)
    (projectId : String) (cs ms : List TimeSeries)
    (hc : env.metrics (_ts_request_common clock projectId cpuMetricType) = .ok cs)
    (hm : env.metrics (_ts_request_common clock projectId memMetricType) = .ok ms) :
    get_project_cpu_avg clock env projectId = .ok (specFirstAvailable cs) ∧
    get_project_mem_avg clock env projectId = .ok (specFirstAvailable ms) := by
  constructor
  · simp [get_project_cpu_avg, hc, scanFirstPoint_eq_spec]
  · simp [get_project_mem_avg, hm, scanFirstPoint_eq_spec]

theorem c2_witness :
    get_project_cpu_avg 0 wEnv "p" = .ok (specFirstAvailable wSeries) ∧
    get_project_mem_avg 0 wEnv "p" = .ok (specFirstAvailable wSeries) ∧
    specFirstAvailable wSeries = some (4567 / 10000) :=
  ⟨(c2_first_available_point 0 wEnv "p" wSeries wSeries rfl rfl).1,
   (c2_first_available_point 0 wEnv "p" wSeries wSeries rfl rfl).2,
   rfl⟩

/-- C8: for every pagination run, `list_running_vms` accumulates
exactly the instances whose status equals `"RUNNING"`, in visiting
order (hence, for disjoint pages, each exactly once); zone and
machine-type display values are the last path segments; and distinct
ids yield pairwise distinct records. -/
theorem c8_pagination_accumulates (pages : List Page) :
    (listRunningVmsData pages).2 =
      ((allInstances pages).filter
        (fun i => decide (i.status = "RUNNING"))).map toVmRecord ∧
    (∀ i : Instance,
      (toVmRecord i).zone = lastSegment i.zone ∧
      (toVmRecord i).machineType = lastSegment i.machineType) ∧
    (∀ a b : String, (∀ c ∈ b.toList, c ≠ '/') →
      lastSegment (a ++ "/" ++ b) = b) ∧
    ((((allInstances pages).filter
        (fun i => decide (i.status = "RUNNING"))).map Instance.id).Nodup →
      (listRunningVmsData pages).2.Nodup) := by
  refine ⟨collectRunning_eq_filter _, fun i => ⟨rfl, rfl⟩,
    fun a b hb => lastSegment_append_last a b hb, ?_⟩
  intro h
  have h2 : (listRunningVmsData pages).2.map VmRecord.id =
      ((allInstances pages).filter
        (fun i => decide (i.status = "RUNNING"))).map Instance.id := by
    rw [show (listRunningVmsData pages).2 = _ from collectRunning_eq_filter _,
      List.map_map]
    rfl
  rw [← h2] at h
  exact h.of_map

theorem c8_witness :
    (listRunningVmsData
      [[("zones/us-central1-a",
         [⟨"web-1", "zones/us-central1-a", "machineTypes/e2-medium", "1",
           "RUNNING"⟩])],
       [("zones/us-central1-b",
         [⟨"web-2", "zones/us-central1-b", "machineTypes/e2-small", "2",
           "RUNNING"⟩])],
       [("zones/us-central1-c",
         [⟨"web-3", "zones/us-central1-c", "machineTypes/e2-small", "3",
           "TERMINATED"⟩])]]).2.Nodup :=
  (c8_pagination_accumulates _).2.2.2 (by decide)

theorem isSome_map_opt {α β : Type} (f : α → β) (o : Option α) :
    (o.map f).isSome = o.isSome := by
  cases o <;> rfl

theorem length_filterMap_isSome {α β : Type} (f : α → Option β) (l : List α) :
    (l.filterMap f).length = (l.filter (fun a => (f a).isSome)).length := by
  induction l with
  | nil => rfl
  | cons a l ih =>
    cases h : f a <;> simp [List.filterMap_cons, List.filter_cons, h, ih]

theorem joinRows_eq_filterMap (cpu mem : List ((String × String) × ℚ))
    (nm : List (String × VmMeta)) :
    joinRows cpu mem nm =
      cpu.filterMap
        (fun kv => (dictGet? nm kv.1.1).map (fun meta => mkRow meta kv mem)) := by
  induction cpu with
  | nil => rfl
  | cons kv rest ih =>
    cases h : dictGet? nm kv.1.1 with
    | none => simp [joinRows, h, List.filterMap_cons, ih]
    | some meta => simp [joinRows, h, List.filterMap_cons, ih]

/-- C3: every row of `get_per_instance_breakdown` originates from a CPU
map entry whose numeric id is present in the VM record map fetched in
the same call, and the number of rows is exactly the number of CPU map
entries with a present id — so CPU keys whose id is absent (orphan
metrics) produce no row. -/
theorem c3_rows_require_vm_record (clock : ℤ) (env : ProjEnv)
    (projectId : String) (cs ms : List TimeSeries) (pages : List Page)
    (hc : env.metrics (tsRequestPerInstance clock projectId cpuMetricType) = .ok cs)
    (hm : env.metrics (tsRequestPerInstance clock projectId memMetricType) = .ok ms)
    (hp : env.pages2 = .ok pages)
    (rows : List Row)
    (hr : get_per_instance_breakdown clock env projectId = .ok rows) :
    rows.length =
      ((fetchVals cs).filter
        (fun kv => (dictGet? (buildNameMap pages) kv.1.1).isSome)).length ∧
    ∀ row ∈ rows, ∃ kv ∈ fetchVals cs,
      (dictGet? (buildNameMap pages) kv.1.1).isSome = true := by
  have hrows : rows = breakdownFromData cs ms pages := by
    simp [get_per_instance_breakdown, hc, hm, hp] at hr
    exact hr.symm
  subst hrows
  constructor
  · show (joinRows (fetchVals cs) (fetchVals ms) (buildNameMap pages)).length = _
    rw [joinRows_eq_filterMap, length_filterMap_isSome]
    simp only [isSome_map_opt]
  · intro row hrow
    have hmem : row ∈ (fetchVals cs).filterMap
        (fun kv => (dictGet? (buildNameMap pages) kv.1.1).map
          (fun meta => mkRow meta kv (fetchVals ms))) := by
      rw [← joinRows_eq_filterMap]
      exact hrow
    obtain ⟨kv, hkv, hEq⟩ := List.mem_filterMap.mp hmem
    cases hmeta : dictGet? (buildNameMap pages) kv.1.1 with
    | none => rw [hmeta] at hEq; simp at hEq
    | some meta => exact ⟨kv, hkv, by rw [hmeta]; rfl⟩

theorem c3_witness :
    (breakdownFromData wSeries wSeries wPages).length =
      ((fetchVals wSeries).filter
        (fun kv => (dictGet? (buildNameMap wPages) kv.1.1).isSome)).length ∧
    (breakdownFromData wSeries wSeries wPages).length = 1 :=
  ⟨(c3_rows_require_vm_record 0 wEnv "p" wSeries wSeries wPages rfl rfl rfl
      (breakdownFromData wSeries wSeries wPages) rfl).1,
   rfl⟩

/-- C4: every emitted row's `cpu_utilization_pct` is the CPU sample
value times 100 rounded to 2 decimals, and its `memory_used_pct` is the
memory map value under the same (id, zone) key rounded to 2 decimals,
or the not-a-number sentinel when the key is absent. -/
theorem c4_row_field_values (clock : ℤ) (env : ProjEnv)
    (projectId : String) (cs ms : List TimeSeries) (pages : List Page)
    (hc : env.metrics (tsRequestPerInstance clock projectId cpuMetricType) = .ok cs)
    (hm : env.metrics (tsRequestPerInstance clock projectId memMetricType) = .ok ms)
    (hp : env.pages2 = .ok pages)
    (rows : List Row)
    (hr : get_per_instance_breakdown clock env projectId = .ok rows) :
    ∀ row ∈ rows, ∃ kv ∈ fetchVals cs, ∃ meta,
      dictGet? (buildNameMap pages) kv.1.1 = some meta ∧
      row = mkRow meta kv (fetchVals ms) ∧
      row.cpu_utilization_pct = pyRound2 (kv.2 * 100) ∧
      row.memory_used_pct = (dictGet? (fetchVals ms) kv.1).map pyRound2 := by
  have hrows : rows = breakdownFromData cs ms pages := by
    simp [get_per_instance_breakdown, hc, hm, hp] at hr
    exact hr.symm
  subst hrows
  intro row hrow
  have hmem : row ∈ (fetchVals cs).filterMap
      (fun kv => (dictGet? (buildNameMap pages) kv.1.1).map
        (fun meta => mkRow meta kv (fetchVals ms))) := by
    rw [← joinRows_eq_filterMap]
    exact hrow
  obtain ⟨kv, hkv, hEq⟩ := List.mem_filterMap.mp hmem
  cases hmeta : dictGet? (buildNameMap pages) kv.1.1 with
  | none => rw [hmeta] at hEq; simp at hEq
  | some meta =>
    rw [hmeta] at hEq
    simp only [Option.map_some'] at hEq
    have heq2 : mkRow meta kv (fetchVals ms) = row := Option.some.inj hEq
    refine ⟨kv, hkv, meta, hmeta, heq2.symm, ?_, ?_⟩
    · rw [← heq2]; rfl
    · rw [← heq2]; rfl

theorem c4_witness :
    (∃ kv ∈ fetchVals wSeries, ∃ meta,
      dictGet? (buildNameMap wPages) kv.1.1 = some meta ∧
      mkRow ⟨"web-1", "us-central1-a", "e2-medium"⟩
          (("123", "us-central1-a"), 4567 / 10000) (fetchVals wSeries) =
        mkRow meta kv (fetchVals wSeries) ∧
      (mkRow ⟨"web-1", "us-central1-a", "e2-medium"⟩
          (("123", "us-central1-a"), 4567 / 10000)
          (fetchVals wSeries)).cpu_utilization_pct =
        pyRound2 (kv.2 * 100) ∧
      (mkRow ⟨"web-1", "us-central1-a", "e2-medium"⟩
          (("123", "us-central1-a"), 4567 / 10000)
          (fetchVals wSeries)).memory_used_pct =
        (dictGet? (fetchVals wSeries) kv.1).map pyRound2) ∧
    (mkRow ⟨"web-1", "us-central1-a", "e2-medium"⟩
        (("123", "us-central1-a"), 4567 / 10000)
        (fetchVals wSeries)).cpu_utilization_pct = 4567 / 100 :=
  ⟨c4_row_field_values 0 wEnv "p" wSeries wSeries wPages rfl rfl rfl
      (breakdownFromData wSeries wSeries wPages) rfl
      (mkRow ⟨"web-1", "us-central1-a", "e2-medium"⟩
        (("123", "us-central1-a"), 4567 / 10000) (fetchVals wSeries))
      (List.mem_cons_self _ _),
   by norm_num [mkRow, pyRound2, pyRoundInt]⟩

theorem dictGet_dictInsert {α β : Type} [DecidableEq α]
    (m : List (α × β)) (k k2 : α) (v : β) :
    dictGet? (dictInsert m k v) k2 =
      if k = k2 then some v else dictGet? m k2 := by
  induction m with
  | nil => simp [dictInsert, dictGet?]
  | cons p rest ih =>
    obtain ⟨k0, v0⟩ := p
    by_cases h0 : k0 = k
    · subst h0
      by_cases h2 : k0 = k2 <;> simp [dictInsert, dictGet?, h2]
    · by_cases h2 : k0 = k2
      · subst h2
        simp [dictInsert, h0, dictGet?, Ne.symm h0]
      · simp [dictInsert, h0, dictGet?, h2, ih]

theorem dictGet_isSome_of_mem {α β : Type} [DecidableEq α]
    (m : List (α × β)) (kv : α × β) (h : kv ∈ m) :
    (dictGet? m kv.1).isSome = true := by
  induction m with
  | nil => cases h
  | cons p rest ih =>
    obtain ⟨k0, v0⟩ := p
    rcases List.mem_cons.mp h with heq | h2
    · subst heq; simp [dictGet?]
    · by_cases hk : k0 = kv.1 <;> simp [dictGet?, hk, ih h2]

theorem fold_fetch_agree (ms : List TimeSeries)
    (m1 m2 : List ((String × String) × ℚ)) (k0 : String × String)
    (hag : ∀ k, k ≠ k0 → dictGet? m1 k = dictGet? m2 k) :
    ∀ k, k ≠ k0 →
      dictGet? (ms.foldl fetchStep m1) k = dictGet? (ms.foldl fetchStep m2) k := by
  induction ms generalizing m1 m2 with
  | nil => exact hag
  | cons ts rest ih =>
    intro k hk
    refine ih (fetchStep m1 ts) (fetchStep m2 ts) ?_ k hk
    intro k2 hk2
    cases hp : ts.points with
    | nil => simp [fetchStep, hp, hag k2 hk2]
    | cons v vs =>
      simp only [fetchStep, hp]
      rw [dictGet_dictInsert, dictGet_dictInsert]
      by_cases h : tsKey ts = k2 <;> simp [h, hag k2 hk2]

theorem joinRows_mem_congr (cpu : List ((String × String) × ℚ))
    (mem1 mem2 : List ((String × String) × ℚ)) (nm : List (String × VmMeta))
    (h : ∀ kv ∈ cpu, dictGet? mem1 kv.1 = dictGet? mem2 kv.1) :
    joinRows cpu mem1 nm = joinRows cpu mem2 nm := by
  induction cpu with
  | nil => rfl
  | cons kv rest ih =>
    have h1 := h kv (List.mem_cons_self kv rest)
    have hr := ih (fun q hq => h q (List.mem_cons_of_mem _ hq))
    cases hg : dictGet? nm kv.1.1 with
    | none => simp [joinRows, hg, hr]
    | some meta => simp [joinRows, hg, hr, mkRow, h1]

/-- C7: an (instance id, zone) key that appears only in the memory data
never produces a row: prepending a memory series whose key is absent
from the CPU map leaves the breakdown unchanged, because the emission
loop iterates only the CPU map. -/
theorem c7_memory_only_never_emits (cs ms : List TimeSeries)
    (ts : TimeSeries) (pages : List Page)
    (h : dictGet? (fetchVals cs) (tsKey ts) = none) :
    breakdownFromData cs (ts :: ms) pages = breakdownFromData cs ms pages := by
  unfold breakdownFromData
  apply joinRows_mem_congr
  intro kv hkv
  have hs := dictGet_isSome_of_mem _ kv hkv
  have hne : kv.1 ≠ tsKey ts := by
    intro he
    rw [he, h] at hs
    simp at hs
  show dictGet? (fetchVals (ts :: ms)) kv.1 = dictGet? (fetchVals ms) kv.1
  have hfold : fetchVals (ts :: ms) = ms.foldl fetchStep (fetchStep [] ts) := rfl
  have hfold2 : fetchVals ms = ms.foldl fetchStep [] := rfl
  rw [hfold, hfold2]
  refine fold_fetch_agree ms (fetchStep [] ts) [] (tsKey ts) ?_ kv.1 hne
  intro k2 hk2
  cases hp : ts.points with
  | nil => simp [fetchStep, hp]
  | cons v vs =>
    simp only [fetchStep, hp]
    rw [dictGet_dictInsert]
    rw [if_neg (fun hh => hk2 hh.symm)]

theorem c7_witness :
    breakdownFromData wSeries [⟨"555", "zone-x", [9 / 10]⟩] wPages =
      breakdownFromData wSeries [] wPages :=
  c7_memory_only_never_emits wSeries [] ⟨"555", "zone-x", [9 / 10]⟩ wPages rfl

/-- C5 as stated is false: with zero running instances but a residual
CPU series for a TERMINATED instance that is still present in the
inventory (and hence in `name_map`, which is not filtered by status),
`list_running_vms` does return count 0 and an empty list, yet
`get_per_instance_breakdown` emits a row. -/
theorem c5_counterexample :
    list_running_vms c5Env "p" = .ok (0, []) ∧
    get_per_instance_breakdown 0 c5Env "p" ≠ .ok [] := by
  constructor
  · rfl
  · intro hcontra
    have hred : get_per_instance_breakdown 0 c5Env "p" =
        .ok [mkRow ⟨"old-vm", "us-central1-a", "e2-small"⟩
          (("77", "us-central1-a"), 1 / 2) []] := rfl
    rw [hred] at hcontra
    simp at hcontra

/-- C5 amended: for every project whose inventory reports zero running
instances, `list_running_vms` returns count 0 and an empty list; and
the breakdown returns an empty list provided the CPU metric response
contains no series (no residual metrics), the condition the
counterexample shows is additionally needed. -/
theorem c5_amended_zero_running (pages : List Page)
    (h : ∀ i ∈ allInstances pages, i.status ≠ "RUNNING") :
    listRunningVmsData pages = (0, []) ∧
    ∀ ms : List TimeSeries, ∀ pgs : List Page,
      breakdownFromData [] ms pgs = [] := by
  constructor
  · simp [listRunningVmsData, collectRunning_eq_nil _ h]
  · intro ms pgs
    rfl

theorem c5_amended_witness :
    listRunningVmsData c5Pages = (0, []) ∧
    breakdownFromData [] c5Cpu c5Pages = [] :=
  ⟨(c5_amended_zero_running c5Pages (by decide)).1,
   (c5_amended_zero_running c5Pages (by decide)).2 c5Cpu c5Pages⟩

/-- C6 as stated is false: the POST handler performs no membership
check against the fixed six-identifier list, so a result IS computed
for a project id outside it. -/
theorem c6_counterexample :
    "evil-project" ∉ PROJECTS_APP ∧
    index 0 cxGoodEnv (some "evil-project") =
      .ok (some { project := "evil-project", cpu_avg := "N/A",
                  mem_avg := "N/A", vm_count := 0, instances := [] }) := by
  constructor
  · decide
  · rfl

/-- C6 amended: the fixed list only populates the form; the handler
computes no result exactly when the submitted project id is absent or
empty, and computes one (or propagates an API error) for EVERY
non-empty id, in-list or not. -/
theorem c6_amended_no_validation (clock : ℤ) (env : ProjEnv)
    (projectId : String) :
    index clock env none = .ok none ∧
    index clock env (some "") = .ok none ∧
    (projectId ≠ "" → index clock env (some projectId) ≠ .ok none) := by
  refine ⟨rfl, rfl, ?_⟩
  intro h hcontra
  simp only [index, if_neg h] at hcontra
  rcases h1 : get_project_cpu_avg clock env projectId with e1 | v1 <;>
    rw [h1] at hcontra
  · simp at hcontra
  rcases h2 : get_project_mem_avg clock env projectId with e2 | v2 <;>
    rw [h2] at hcontra
  · simp at hcontra
  rcases h3 : list_running_vms env projectId with e3 | r3 <;>
    rw [h3] at hcontra
  · simp at hcontra
  rcases h4 : get_per_instance_breakdown clock env projectId with e4 | rows <;>
    rw [h4] at hcontra
  · simp at hcontra
  · simp at hcontra

theorem c6_amended_witness :
    index 0 cxGoodEnv none = .ok none ∧
    index 0 cxGoodEnv (some "") = .ok none ∧
    index 0 cxGoodEnv (some "evil-project") ≠ .ok none :=
  ⟨(c6_amended_no_validation 0 cxGoodEnv "evil-project").1,
   (c6_amended_no_validation 0 cxGoodEnv "evil-project").2.1,
   (c6_amended_no_validation 0 cxGoodEnv "evil-project").2.2 (by decide)⟩

theorem caughtCpu_of_error (clock : ℤ) (env : ProjEnv) (projectId e : String)
    (h : get_project_cpu_avg clock env projectId = .error e) :
    caughtCpu clock env projectId = (none, [cpuFailMsg projectId e]) := by
  simp [caughtCpu, h]

theorem caughtMem_of_error (clock : ℤ) (env : ProjEnv) (projectId e : String)
    (h : get_project_mem_avg clock env projectId = .error e) :
    caughtMem clock env projectId = (none, [memFailMsg projectId e]) := by
  simp [caughtMem, h]

theorem caughtVm_of_error (env : ProjEnv) (projectId e : String)
    (h : list_running_vms env projectId = .error e) :
    caughtVm env projectId = ((0, []), [vmFailMsg projectId e]) := by
  simp [caughtVm, h]

theorem run_for_project_ok (clock : ℤ) (env : ProjEnv) (projectId : String)
    (h : safeProj clock env projectId) :
    ∃ report, run_for_project clock env projectId = .ok report ∧
      (∀ e, get_project_cpu_avg clock env projectId = .error e →
        report.cpuAvg = none ∧ cpuFailMsg projectId e ∈ report.logs) ∧
      (∀ e, get_project_mem_avg clock env projectId = .error e →
        report.memAvg = none ∧ memFailMsg projectId e ∈ report.logs) ∧
      (∀ e, list_running_vms env projectId = .error e →
        report.vmCount = 0 ∧ vmFailMsg projectId e ∈ report.logs) := by
  by_cases hz : (caughtVm env projectId).1.1 = 0
  · refine ⟨{ project := projectId,
              cpuAvg := (caughtCpu clock env projectId).1,
              memAvg := (caughtMem clock env projectId).1,
              vmCount := (caughtVm env projectId).1.1,
              rows := none,
              logs := (caughtCpu clock env projectId).2 ++
                (caughtMem clock env projectId).2 ++
                (caughtVm env projectId).2 },
      ?_, ?_, ?_, ?_⟩
    · simp [run_for_project, hz]
    · intro e he
      have hcc := caughtCpu_of_error clock env projectId e he
      simp [hcc]
    · intro e he
      have hmm := caughtMem_of_error clock env projectId e he
      simp [hmm]
    · intro e he
      have hvv := caughtVm_of_error env projectId e he
      simp [hvv]
  · have hbr : ∃ rows, get_per_instance_breakdown clock env projectId = .ok rows := by
      rcases h with hleft | hright
      · exfalso
        rcases hlv : list_running_vms env projectId with e | r
        · have hvv : caughtVm env projectId = ((0, []), [vmFailMsg projectId e]) :=
            caughtVm_of_error env projectId e hlv
          exact hz (by rw [hvv])
        · simp only [hlv] at hleft
          have hcr : (caughtVm env projectId).1.1 = r.1 := by
            simp [caughtVm, hlv]
          exact hz (by rw [hcr, hleft])
      · exact hright
    obtain ⟨rows, hrows⟩ := hbr
    refine ⟨{ project := projectId,
                cpuAvg := (caughtCpu clock env projectId).1,
                memAvg := (caughtMem clock env projectId).1,
                vmCount := (caughtVm env projectId).1.1,
                rows := some rows,
                logs := (caughtCpu clock env projectId).2 ++
                  (caughtMem clock env projectId).2 ++
                  (caughtVm env projectId).2 },
      ?_, ?_, ?_, ?_⟩
    · simp [run_for_project, hz, hrows]
    · intro e he
      have hcc := caughtCpu_of_error clock env projectId e he
      simp [hcc]
    · intro e he
      have hmm := caughtMem_of_error clock env projectId e he
      simp [hmm]
    · intro e he
      have hvv := caughtVm_of_error env projectId e he
      simp [hvv]

/-- C1 amended: in batch mode, every project whose CPU-average,
memory-average, or VM-listing call raises an API error has the error
caught, a message logged, and neutral defaults (not-a-number average /
zero count) substituted, and processing continues through the whole
batch — PROVIDED no project reaches the per-instance breakdown call
with a failing upstream, because that call is unguarded and its error
aborts the remaining batch (the correction the counterexample forces). -/
theorem c1_amended_batch_tolerates_errors (clock : ℤ)
    (projs : List (String × ProjEnv))
    (h : ∀ p ∈ projs, safeProj clock p.2 p.1) :
    (runBatch clock projs).2 = none ∧
    (runBatch clock projs).1.length = projs.length ∧
    ∀ p ∈ projs, ∃ report, run_for_project clock p.2 p.1 = .ok report ∧
      (∀ e, get_project_cpu_avg clock p.2 p.1 = .error e →
        report.cpuAvg = none ∧ cpuFailMsg p.1 e ∈ report.logs) ∧
      (∀ e, get_project_mem_avg clock p.2 p.1 = .error e →
        report.memAvg = none ∧ memFailMsg p.1 e ∈ report.logs) ∧
      (∀ e, list_running_vms p.2 p.1 = .error e →
        report.vmCount = 0 ∧ vmFailMsg p.1 e ∈ report.logs) := by
  induction projs with
  | nil => exact ⟨rfl, rfl, by simp⟩
  | cons p rest ih =>
    obtain ⟨pid, env⟩ := p
    have hp := h (pid, env) (List.mem_cons_self _ _)
    obtain ⟨r, hr, hprops⟩ := run_for_project_ok clock env pid hp
    have hrest := ih (fun q hq => h q (List.mem_cons_of_mem _ hq))
    refine ⟨?_, ?_, ?_⟩
    · simp [runBatch, hr, hrest.1]
    · simp [runBatch, hr, hrest.2.1]
    · intro q hq
      rcases List.mem_cons.mp hq with heq | hq2
      · subst heq
        exact ⟨r, hr, hprops⟩
      · exact hrest.2.2 q hq2

theorem c1_amended_witness :
    (runBatch 0 [("km-prod", c1wEnv)]).2 = none ∧
    (runBatch 0 [("km-prod", c1wEnv)]).1.length = 1 :=
  ⟨(c1_amended_batch_tolerates_errors 0 [("km-prod", c1wEnv)]
      (fun p hp => by
        rcases List.mem_cons.mp hp with heq | hq
        · subst heq; exact Or.inl rfl
        · cases hq)).1,
   (c1_amended_batch_tolerates_errors 0 [("km-prod", c1wEnv)]
      (fun p hp => by
        rcases List.mem_cons.mp hp with heq | hq
        · subst heq; exact Or.inl rfl
        · cases hq)).2.1⟩

/-- C1 as stated is false: in a batch of two projects where the FIRST
project's per-instance metrics-service call raises an API error (its
inventory reports one running VM, so the unguarded breakdown call is
reached), the error is not caught: no report is produced for either
project and the error escapes, aborting the remaining batch. -/
theorem c1_counterexample :
    (∃ e, cxBadEnv.metrics (tsRequestPerInstance 0 "km-prod" cpuMetricType) =
      .error e) ∧
    runBatch 0 [("km-prod", cxBadEnv), ("km-prod-eu", cxGoodEnv)] =
      ([], some "boom") :=
  ⟨⟨"boom", rfl⟩, rfl⟩

/-- C9: with a fixed clock and a fixed set of upstream responses, two
invocations of the per-project report produce identical formatted
output — the computation is a pure function of the clock, the upstream
environment, and the project id. -/
theorem c9_deterministic_two_runs (clock1 clock2 : ℤ)
    (env1 env2 : ProjEnv) (pid1 pid2 : String)
    (hc : clock1 = clock2) (he : env1 = env2) (hp : pid1 = pid2) :
    (run_for_project clock1 env1 pid1).map formatReport =
      (run_for_project clock2 env2 pid2).map formatReport := by
  subst hc
  subst he
  subst hp
  rfl

theorem c9_witness :
    (run_for_project 0 wEnv "km-prod").map formatReport =
      (run_for_project 0 wEnv "km-prod").map formatReport :=
  c9_deterministic_two_runs 0 0 wEnv wEnv "km-prod" "km-prod" rfl rfl rfl
